import Mathlib

/-!
Verification of the tool-invocation orchestration layer of the `ai-thing`
repository: the Gemini conversation loop (`src/core/ai_gemini_handler.py`),
the tool registry and schema sanitizer (`src/core/ai_tool_manager.py`), and
the MCP protocol client (`src/core/mcp_client.py`), shallowly embedded in
Lean.  Python dicts are modelled as association lists with unique keys in
insertion order, JSON documents as the inductive `JValue`, and effectful
collaborators (the model SDK, tool executors, HTTP endpoints, the stdio
child process) as explicit function parameters.
-/

namespace AiThing

/-- A JSON value, as produced by `json.loads` / consumed by `json.dumps`.
Python dicts are association lists in insertion order (keys unique). -/
inductive JValue where
  | jstr (s : String)
  | jnum (n : Int)
  | jbool (b : Bool)
  | jnull
  | jarr (elems : List JValue)
  | jobj (fields : List (String × JValue))
deriving Repr, Inhabited

mutual

/-- Structural equality on JSON values (Python `==` on parsed JSON). -/
def jeq : JValue → JValue → Bool
  | .jstr a, .jstr b => a == b
  | .jnum a, .jnum b => a == b
  | .jbool a, .jbool b => a == b
  | .jnull, .jnull => true
  | .jarr a, .jarr b => jeqList a b
  | .jobj a, .jobj b => jeqObj a b
  | _, _ => false

/-- Equality on JSON arrays, element by element. -/
def jeqList : List JValue → List JValue → Bool
  | [], [] => true
  | a :: as_, b :: bs => jeq a b && jeqList as_ bs
  | _, _ => false

/-- Equality on JSON objects: same keys with equal values, in order
(insertion-ordered dicts coming from the same serialization agree on order). -/
def jeqObj : List (String × JValue) → List (String × JValue) → Bool
  | [], [] => true
  | (k, a) :: as_, (k2, b) :: bs => k == k2 && jeq a b && jeqObj as_ bs
  | _, _ => false

end

instance : BEq JValue := ⟨jeq⟩

/-- Python `d.get(key)` on a dict modelled as an association list
(first match; keys are unique in a real dict). -/
def lookupKey (kvs : List (String × JValue)) (key : String) : Option JValue :=
  match kvs.find? (fun kv => kv.1 == key) with
  | some kv => some kv.2
  | none => none

/-- Python `key in d`. -/
def hasKey (kvs : List (String × JValue)) (key : String) : Bool :=
  (lookupKey kvs key).isSome

/-- Python `del d[key]` (key removal; a no-op when the key is absent the
callers guard with `in`). -/
def delKey (kvs : List (String × JValue)) (key : String) : List (String × JValue) :=
  kvs.filter (fun kv => kv.1 != key)

/-- Python `d.get(key, default)` where `d` is `v` when `v` is a dict
(the sources only call `.get` on dicts). -/
def jget (v : JValue) (key : String) (dflt : JValue) : JValue :=
  match v with
  | .jobj kvs => (lookupKey kvs key).getD dflt
  | _ => dflt

/-- Python truthiness of a JSON value (`if x:`). -/
def jTruthy : JValue → Bool
  | .jstr s => s != ""
  | .jnum n => n != 0
  | .jbool b => b
  | .jnull => false
  | .jarr xs => !xs.isEmpty
  | .jobj kvs => !kvs.isEmpty

/-! ## Schema sanitizer: `AIToolManager._sanitize_schema` -/

/-- The keyword list removed at every visited level
(`ai_tool_manager.py` line 207). -/
def unsupportedKeys : List String :=
  ["minimum", "maximum", "example", "additionalProperties", "$schema",
   "default", "format", "nullable"]

/-- `s.replace` of backtick by the empty string: strip backticks from a description string.
Replacing every occurrence of the single character with the empty string
is exactly dropping that character. -/
def stripBackticks (s : String) : String :=
  ⟨s.data.filter (fun c => c != '`')⟩

/-- The in-place description scrub: only string-valued descriptions are
rewritten (`isinstance` of the description value with `str`). -/
def cleanDescriptionValue : JValue → JValue
  | .jstr s => .jstr (stripBackticks s)
  | v => v

mutual

/-- Model of `AIToolManager._sanitize_schema` acting on one schema dict:
delete the unsupported keywords, scrub a string `description`, recurse into
dict-valued entries of `properties` and into a dict-valued `items`.  The
Python code mutates the dict in place; this is the resulting dict. -/
def sanitizeSchema : List (String × JValue) → List (String × JValue)
  | [] => []
  | (k, v) :: rest =>
    if unsupportedKeys.contains k then sanitizeSchema rest
    else if k == "description" then (k, cleanDescriptionValue v) :: sanitizeSchema rest
    else if k == "properties" then (k, sanitizeProperties v) :: sanitizeSchema rest
    else if k == "items" then (k, sanitizeIfDict v) :: sanitizeSchema rest
    else (k, v) :: sanitizeSchema rest

/-- Recursion into `properties`: only when the value is a dict, and then only
into its dict-valued entries (`isinstance(prop_schema, dict)`). -/
def sanitizeProperties : JValue → JValue
  | .jobj props => .jobj (sanitizePropList props)
  | v => v

/-- Walk the `properties` dict, sanitizing each dict-valued property schema. -/
def sanitizePropList : List (String × JValue) → List (String × JValue)
  | [] => []
  | (n, s) :: rest => (n, sanitizeIfDict s) :: sanitizePropList rest

/-- Sanitize a value when it is a dict, leave anything else untouched
(the `isinstance(..., dict)` guards for property schemas and `items`). -/
def sanitizeIfDict : JValue → JValue
  | .jobj kvs => .jobj (sanitizeSchema kvs)
  | v => v

end

/-! Deep key search: does `key` occur as a dict key anywhere inside the
value, at any nesting depth (through objects and arrays alike)? -/

mutual

/-- `key` occurs as a dict key somewhere inside the value. -/
def containsKeyDeep (key : String) : JValue → Bool
  | .jobj kvs => containsKeyDeepObj key kvs
  | .jarr xs => containsKeyDeepArr key xs
  | _ => false

/-- `key` occurs in this object or below it. -/
def containsKeyDeepObj (key : String) : List (String × JValue) → Bool
  | [] => false
  | (k, v) :: rest => k == key || containsKeyDeep key v || containsKeyDeepObj key rest

/-- `key` occurs somewhere inside one of the array elements. -/
def containsKeyDeepArr (key : String) : List JValue → Bool
  | [] => false
  | v :: rest => containsKeyDeep key v || containsKeyDeepArr key rest

end

/-! ## Importing a remote tool declaration: `AIToolManager._load_remote_tools` -/

/-- A declaration registered for the model: name, scrubbed description and
sanitized parameter schema. -/
structure ToolDeclaration where
  name : String
  description : String
  parameters : List (String × JValue)
deriving Repr

/-- The per-tool import step of `_load_remote_tools` (lines 162-188): read the
name (skip when falsy), take `inputSchema` (defaulting to an empty object
schema), pre-delete `additionalProperties` and `$schema` at the top level,
run the sanitizer, and strip backticks from the top-level description.
Returns `none` for shapes the Python code skips (no name) or on which it
would not reach registration (a non-dict `inputSchema` or a non-string
present description, which raise inside the per-server `try`). -/
def importRemoteTool (toolDef : List (String × JValue)) : Option ToolDeclaration :=
  match lookupKey toolDef ("name") with
  | some (.jstr nm) =>
    if nm == "" then none
    else
      let schemaV := (lookupKey toolDef ("inputSchema")).getD
        (.jobj [("type", .jstr ("object")), ("properties", .jobj [])])
      match schemaV with
      | .jobj inputSchema =>
        let schema1 := delKey (delKey inputSchema ("additionalProperties")) ("$schema")
        let params := sanitizeSchema schema1
        match lookupKey toolDef ("description") with
        | some (.jstr d) => some ⟨nm, stripBackticks d, params⟩
        | none => some ⟨nm, stripBackticks (""), params⟩
        | some _ => none
      | _ => none
  | _ => none

/-! The part of the schema the sanitizer actually visits: a node is
well-sanitized when no unsupported keyword survives at its top level, its
string description is backtick-free, and the same holds recursively at every
dict-valued property schema and dict-valued `items`. -/

mutual

/-- No unsupported keyword at this level, description scrubbed, and the
visited children (dict property values, dict `items`) likewise. -/
def schemaSanitized : List (String × JValue) → Bool
  | [] => true
  | (k, v) :: rest =>
    !unsupportedKeys.contains k &&
    (if k == "description" then descriptionClean v else true) &&
    (if k == "properties" then propsSanitized v else true) &&
    (if k == "items" then dictSanitized v else true) &&
    schemaSanitized rest

/-- A string description carries no backtick; non-strings are not scrubbed. -/
def descriptionClean : JValue → Bool
  | .jstr s => !s.data.contains '`'
  | _ => true

/-- Every dict-valued property schema is sanitized. -/
def propsSanitized : JValue → Bool
  | .jobj props => propsListSanitized props
  | _ => true

/-- Walk the property dict. -/
def propsListSanitized : List (String × JValue) → Bool
  | [] => true
  | (_, s) :: rest => dictSanitized s && propsListSanitized rest

/-- A dict value is sanitized as a schema; anything else is out of the
reach of the sanitizer and vacuously fine. -/
def dictSanitized : JValue → Bool
  | .jobj kvs => schemaSanitized kvs
  | _ => true

end

/-! ## `json.dumps(..., sort_keys=True)` for the repetition key -/

/-- Insert a key/value pair into a key-sorted association list
(Python `sorted` on the dict keys). -/
def insertByKey (kv : String × JValue) : List (String × JValue) → List (String × JValue)
  | [] => [kv]
  | x :: xs => if kv.1 ≤ x.1 then kv :: x :: xs else x :: insertByKey kv xs

/-- Sort the entries of a dict by key (the effect of `sort_keys=True` at each level). -/
def sortByKey : List (String × JValue) → List (String × JValue)
  | [] => []
  | kv :: rest => insertByKey kv (sortByKey rest)

/-- JSON string quoting.  The model escapes backslashes and double quotes;
Python additionally escapes control characters, which the orchestration layer
never inspects (the serialization only feeds an equality check). -/
def jsonQuote (s : String) : String :=
  "\"" ++ (s.replace ("\\") ("\\\\")).replace ("\"") ("\\\"") ++ "\""

mutual

/-- Sort every dict in the value by key (what `sort_keys=True` does before
serialization at each level). -/
def sortKeysDeep : JValue → JValue
  | .jarr xs => .jarr (sortKeysArr xs)
  | .jobj kvs => .jobj (sortByKey (sortKeysKVs kvs))
  | v => v

/-- Deep-sort every element of an array. -/
def sortKeysArr : List JValue → List JValue
  | [] => []
  | v :: rest => sortKeysDeep v :: sortKeysArr rest

/-- Deep-sort every value of an object (the keys themselves are sorted by
the caller). -/
def sortKeysKVs : List (String × JValue) → List (String × JValue)
  | [] => []
  | (k, v) :: rest => (k, sortKeysDeep v) :: sortKeysKVs rest

end

mutual

/-- Serialize a value with the default separators of `json.dumps`. -/
def dumpsVal : JValue → String
  | .jstr s => jsonQuote s
  | .jnum n => toString n
  | .jbool b => if b then "true" else "false"
  | .jnull => "null"
  | .jarr xs => "[" ++ dumpsArr xs ++ "]"
  | .jobj kvs => "\x7b" ++ dumpsObj kvs ++ "\x7d"

/-- Serialize array elements, `", "`-separated. -/
def dumpsArr : List JValue → String
  | [] => ""
  | [v] => dumpsVal v
  | v :: rest => dumpsVal v ++ ", " ++ dumpsArr rest

/-- Serialize object entries, `", "`-separated. -/
def dumpsObj : List (String × JValue) → String
  | [] => ""
  | [(k, v)] => jsonQuote k ++ ": " ++ dumpsVal v
  | (k, v) :: rest => jsonQuote k ++ ": " ++ dumpsVal v ++ ", " ++ dumpsObj rest

end

/-- `json.dumps(v, sort_keys=True)`: keys sorted recursively, then
serialized. -/
def dumpsSorted (v : JValue) : String :=
  dumpsVal (sortKeysDeep v)

/-! ## The conversation loop: `GeminiChatHandler.chat` -/

/-- A tool call requested by the model: name plus the argument dict already
extracted from the proto (`_extract_args_from_proto`). -/
structure FunctionCall where
  name : String
  args : List (String × JValue)

/-- One model response, as the loop reads it: the first function-call part
(if any), the text parts in order, and the finish reason. -/
structure ModelResponse where
  functionCall : Option FunctionCall
  textParts : List String
  finishReason : Option String

/-- The canonical repetition key
(`f"{tool_name}:{json.dumps(tool_args, sort_keys=True)}"`, line 297). -/
def toolCallKey (name : String) (args : List (String × JValue)) : String :=
  name ++ ":" ++ dumpsSorted (.jobj args)

/-- What one invocation of a tool executor does on given arguments: return a
dict, return a non-dict (stringified and wrapped by the loop), or raise. -/
inductive ToolOutcome where
  | dictResult (d : List (String × JValue))
  | otherResult (s : String)
  | raised (msg : String)

/-- A registered tool executor.  `legacyExecute` distinguishes the
class-with-`.execute` branch (line 318) from the plain-callable branch
(line 332); `helpText` models `get_help` when the attribute exists. -/
structure ToolEntry where
  legacyExecute : Bool
  helpText : Option String
  run : List (String × JValue) → ToolOutcome

/-- The tool registry as the loop sees it: the loaded `name -> executor`
mapping plus the `/tool list` summary text the manager would produce
(collaborator data the loop only forwards). -/
structure ToolRegistry where
  tools : List (String × ToolEntry)
  toolListSummary : String

/-- `AIToolManager.get_tool_instance`. -/
def ToolRegistry.getToolInstance (r : ToolRegistry) (name : String) : Option ToolEntry :=
  match r.tools.find? (fun kv => kv.1 == name) with
  | some kv => some kv.2
  | none => none

/-- The error-message lead the dispatch boundary prepends to a raised
text of the exception (lines 327 and 346). -/
def errorMsgLead (legacy : Bool) (name : String) : String :=
  if legacy then "Error executing tool " ++ name ++ ": "
  else "Error executing callable tool " ++ name ++ ": "

/-- The dispatch boundary (lines 315-353): look the tool up, run it, coerce a
non-dict result into `{"result": str(...)}`, turn a raised exception into
`{"error": message}`, and report an unknown tool as an error dict. -/
def dispatchTool (entry? : Option ToolEntry) (name : String)
    (args : List (String × JValue)) : List (String × JValue) :=
  match entry? with
  | none => [("error", .jstr ("Unknown or non-executable tool: " ++ name))]
  | some entry =>
    match entry.run args with
    | .dictResult d => d
    | .otherResult s => [("result", .jstr s)]
    | .raised e => [("error", .jstr (errorMsgLead entry.legacyExecute name ++ e))]

/-- A message sent to the chat session: the text of the user (or a plain
instruction string) or a `Part(function_response=...)` tool result. -/
inductive Payload where
  | userText (s : String)
  | toolResult (name : String) (response : List (String × JValue))

/-- `repeated_call_count.get(key, 1)` (line 300). -/
def getRepCount (rep : List (String × Nat)) (key : String) : Nat :=
  match rep.find? (fun kv => kv.1 == key) with
  | some kv => kv.2
  | none => 1

/-- `repeated_call_count[key] = n`: dict assignment (replace or append). -/
def setRepCount (rep : List (String × Nat)) (key : String) (n : Nat) :
    List (String × Nat) :=
  if rep.any (fun kv => kv.1 == key) then
    rep.map (fun kv => if kv.1 == key then (kv.1, n) else kv)
  else rep ++ [(key, n)]

/-- The instruction sent when the repetition guard fires (line 307). -/
def forcedSummaryPromptFor (name : String) : String :=
  "The tool " ++ name ++
  " has been called multiple times with the same arguments and has completed successfully. Please provide a final response to the user without calling any more tools."

/-- `_extract_text_from_response` (lines 151-161) on a response that has a
content candidate: join the non-empty text parts with newlines, with a fixed
placeholder when there are none. -/
def extractTextFromResponse (r : ModelResponse) : String :=
  let tp := r.textParts.filter (fun s => s != "")
  if tp.isEmpty then "I couldn\x27t generate a text response."
  else String.intercalate ("\n") tp

/-- Python `s.strip()`: drop whitespace from both ends. -/
def pyStrip (s : String) : String :=
  ⟨((s.data.dropWhile Char.isWhitespace).reverse.dropWhile Char.isWhitespace).reverse⟩

/-- The joined-and-stripped text of a response
(join the text of every part that has one, then strip). -/
def responseTextOf (r : ModelResponse) : String :=
  pyStrip (String.join r.textParts)

/-- The placeholder substituted for an empty text response (lines 359-364). -/
def emptyTextFallback (r : ModelResponse) : String :=
  if r.finishReason == some ("STOP") && String.join r.textParts == "" then
    "(Model generated no text content before stopping)"
  else
    "(No textual response. Finish reason: " ++
    (match r.finishReason with
     | some fr => fr
     | none => "N/A") ++ ")"

/-- Which terminal the loop reached. -/
inductive LoopEnding where
  | textReply
  | forcedRepetition
  | maxReached
deriving Repr, DecidableEq

/-- The observable outcome of one run of the `while` loop: the returned
string, how many tool executors were invoked, every message sent to the chat
session (in order), and the terminal taken. -/
structure ChatResult where
  reply : String
  dispatches : Nat
  sent : List Payload
  ending : LoopEnding

/-- The `while tool_call_count < max_tool_calls` loop of
`GeminiChatHandler.chat` (lines 276-390), driven by `script`, the model
response to the `idx`-th `send_message` of this invocation.  `fuel` is
`max_tool_calls - tool_call_count` (the loop guard), `prev` is
`previous_tool_calls`, `rep` is `repeated_call_count`.  When the guard fails
the max-tool-calls epilogue (lines 369-390) sends the pending payload once
more and returns. -/
def chatLoop (registry : ToolRegistry) (script : Nat → ModelResponse) :
    Nat → Payload → List String → List (String × Nat) → Nat → ChatResult
  | 0, payload, _, _, idx =>
    let r := script idx
    let responseText := responseTextOf r
    let reply :=
      if responseText != "" then responseText
      else
        match r.functionCall with
        | some fc =>
          "(Task ended after reaching tool call limit. Model wanted to call: " ++
          fc.name ++ ")"
        | none =>
          "(Task completed, but model provided no final summary after reaching tool call limit.)"
    { reply := reply, dispatches := 0, sent := [payload], ending := .maxReached }
  | fuel + 1, payload, prev, rep, idx =>
    let r := script idx
    match r.functionCall with
    | some fc =>
      let key := toolCallKey fc.name fc.args
      if prev.contains key then
        let n := getRepCount rep key + 1
        let rep2 := setRepCount rep key n
        if 3 ≤ n then
          let finalR := script (idx + 1)
          { reply := extractTextFromResponse finalR, dispatches := 0,
            sent := [payload, .userText (forcedSummaryPromptFor fc.name)],
            ending := .forcedRepetition }
        else
          let respDict := dispatchTool (registry.getToolInstance fc.name) fc.name fc.args
          let rest := chatLoop registry script fuel (.toolResult fc.name respDict)
            (prev ++ [key]) rep2 (idx + 1)
          { reply := rest.reply, dispatches := rest.dispatches + 1,
            sent := payload :: rest.sent, ending := rest.ending }
      else
        let respDict := dispatchTool (registry.getToolInstance fc.name) fc.name fc.args
        let rest := chatLoop registry script fuel (.toolResult fc.name respDict)
          (prev ++ [key]) rep (idx + 1)
        { reply := rest.reply, dispatches := rest.dispatches + 1,
          sent := payload :: rest.sent, ending := rest.ending }
    | none =>
      let responseText := responseTextOf r
      let reply := if responseText != "" then responseText else emptyTextFallback r
      { reply := reply, dispatches := 0, sent := [payload], ending := .textReply }

/-- One conversation-loop run on a fresh turn state (line 269-276: the loop is
entered with the raw prompt as payload, zero tool calls and empty repetition
tracking). -/
def runChat (registry : ToolRegistry) (script : Nat → ModelResponse)
    (prompt : String) (maxToolCalls : Nat) : ChatResult :=
  chatLoop registry script maxToolCalls (.userText prompt) [] [] 0

/-- What `GeminiChatHandler.chat` gives back to its caller: the returned
value (`None` for a blank prompt), plus the session/dispatch observables of
this invocation (`sent` empty means nothing reached the model and the chat
session history is untouched). -/
structure ChatReturn where
  reply : Option String
  sent : List Payload
  dispatches : Nat

/-- `prompt.strip().split()`: split on whitespace runs. -/
def splitWs (s : String) : List String :=
  (s.split (fun c => c.isWhitespace)).filter (fun t => t != "")

/-- The `/help <tool>` answer (lines 254-265). -/
def helpReply (registry : ToolRegistry) (prompt : String) : String :=
  let parts := splitWs (pyStrip prompt)
  if parts.length == 2 then
    let helpName := (parts.drop 1).headD ("")
    let notFound :=
      let names := String.intercalate (", ") (registry.tools.map (fun kv => kv.1))
      "Sorry, I couldn\x27t find help for \x27" ++ helpName ++
      "\x27. Available local tools are: " ++ (if names != "" then names else "None") ++ "."
    match registry.getToolInstance helpName with
    | some entry =>
      match entry.helpText with
      | some h => "[Help for " ++ helpName ++ "]\n" ++ h
      | none => notFound
    | none => notFound
  else "Usage: /help <tool_name>\nExample: /help get_weather"

/-- `GeminiChatHandler.chat` (lines 244-397): blank prompts return `None`
before anything is sent; an uninitialized session returns an error string;
`/help` and `/tool list` answer from local metadata without a model turn;
everything else runs the conversation loop. -/
def chat (registry : ToolRegistry) (script : Nat → ModelResponse)
    (sessionReady : Bool) (prompt : String) (maxToolCalls : Nat) : ChatReturn :=
  if prompt == "" || pyStrip prompt == "" then
    { reply := none, sent := [], dispatches := 0 }
  else if !sessionReady then
    { reply := some ("Error: Chat session or model not initialized."), sent := [], dispatches := 0 }
  else if ((pyStrip prompt).toLower).startsWith ("/help") then
    { reply := some (helpReply registry prompt), sent := [], dispatches := 0 }
  else if (pyStrip prompt).toLower == "/tool list" then
    { reply := some registry.toolListSummary, sent := [], dispatches := 0 }
  else
    let r := runChat registry script prompt maxToolCalls
    { reply := some r.reply, sent := r.sent, dispatches := r.dispatches }

/-! ## OAuth flow: `MCPClient._perform_oauth_flow` -/

/-- Python truthiness of an optional string (`if not x:` on a value that is
`None` or a string). -/
def optStrFalsy : Option String → Bool
  | none => true
  | some s => s == ""

/-- One POST to the token endpoint: url, form payload in insertion order,
headers. -/
structure TokenRequest where
  url : String
  payloadData : List (String × String)
  headers : List (String × String)
deriving Repr, DecidableEq

/-- What `requests.post` to the token endpoint comes back with: a response
with a status code and (when it parses) a JSON body, or a request-level
exception. -/
inductive TokenResponse where
  | ok (status : Nat) (body : Option (List (String × JValue)))
  | reqError (msg : String)

/-- Everything `_perform_oauth_flow` reads from its surroundings: the
configuration (base url, client id/secret), the randomness (PKCE verifier,
CSRF `state`), whether the local callback listener could bind, what the
one-shot callback handler recorded (`self.auth_code`,
`self.received_state`), and the behavior of the token endpoint. -/
structure OAuthEnv where
  baseUrl : Option String
  clientId : Option String
  clientSecret : Option String
  codeVerifier : String
  state : String
  serverStart : Bool
  callbackCode : Option String
  callbackState : Option String
  tokenEndpoint : TokenRequest → TokenResponse

/-- The observable outcome of the flow: the token field set on the client,
the token persisted through the configuration manager, and every request made
to the token endpoint. -/
structure OAuthResult where
  accessToken : Option JValue
  savedToken : Option JValue
  tokenRequests : List TokenRequest

/-- An `OAuthResult` with no token and no token-endpoint traffic (the early
`return` paths). -/
def oauthAbort : OAuthResult :=
  { accessToken := none, savedToken := none, tokenRequests := [] }

/-- Model of `MCPClient._perform_oauth_flow` (lines 135-224).  Fail (without
touching the token endpoint) when base url or client id is missing, when the
callback listener cannot bind, and when no truthy authorization code arrived
or the received `state` differs from the generated one.  Otherwise POST the
code exchange: `grant_type`/`code`/`redirect_uri`/`client_id`/`code_verifier`
in the form body, plus `client_secret` in the body when one is configured,
with only an `Accept` header.  A non-200 status or request error is caught
and yields no token; a 200 body with an `access_token` key sets and persists
the token.  (A 200 body that is not JSON raises out of the flow; no token is
produced on that path either.) -/
def performOauthFlow (env : OAuthEnv) : OAuthResult :=
  if optStrFalsy env.baseUrl || optStrFalsy env.clientId then oauthAbort
  else if !env.serverStart then oauthAbort
  else if optStrFalsy env.callbackCode || env.callbackState != some env.state then
    oauthAbort
  else
    let base := env.baseUrl.getD ("")
    let tokenPayload :=
      [("grant_type", "authorization_code"),
       ("code", env.callbackCode.getD ("")),
       ("redirect_uri", "http://127.0.0.1:8080/"),
       ("client_id", env.clientId.getD ("")),
       ("code_verifier", env.codeVerifier)] ++
      (if optStrFalsy env.clientSecret then []
       else [("client_secret", env.clientSecret.getD (""))])
    let req : TokenRequest :=
      { url := base ++ "/token", payloadData := tokenPayload,
        headers := [("Accept", "application/json")] }
    let exchanged :=
      match env.tokenEndpoint req with
      | .ok 200 (some body) => lookupKey body ("access_token")
      | _ => none
    { accessToken := exchanged, savedToken := exchanged, tokenRequests := [req] }

/-! ## HTTP transport: `MCPClient._http_request` -/

/-- `base.update(upd)` on string dicts: existing keys take the new value in
place, new keys are appended in the order of `upd`. -/
def dictUpdate (base upd : List (String × String)) : List (String × String) :=
  (base.map (fun kv =>
    match upd.find? (fun u => u.1 == kv.1) with
    | some u => (kv.1, u.2)
    | none => kv)) ++
  upd.filter (fun u => !(base.any (fun kv => kv.1 == u.1)))

/-- What one `requests.post` of the JSON-RPC envelope does: a response
(status plus parsed JSON body) or a request-level exception. -/
inductive PostOutcome where
  | ok (status : Nat) (body : Option JValue)
  | timeoutExc
  | reqExc (msg : String)

/-- What `_http_request` reads from its surroundings: the configured url
(`self.url`), the configured extra headers, and the wire. -/
structure HttpEnv where
  url : Option String
  requestHeaders : List (String × String)
  post : PostOutcome

/-- The string form of the `requests` `HTTPError` raised by
`raise_for_status` (collaborator text; only its presence matters here). -/
def httpErrorText (status : Nat) : String :=
  "HTTP error " ++ toString status ++ " for url"

/-- The observable outcome of `_http_request`: the returned dict, how many
POSTs went out, how many OAuth flows were run, and whether the cached token
was cleared.  The source performs at most one POST and never touches the
token or the OAuth flow. -/
structure HttpResult where
  result : JValue
  postsMade : Nat
  oauthFlowsRun : Nat
  tokenCleared : Bool
deriving Repr

/-- Model of `MCPClient._http_request` (lines 359-381): no url is an
immediate error dict; otherwise exactly one POST with
Content-Type/Accept (updated with the configured headers).  A timeout maps
to the `-32000` error dict, any other request exception (including the
`HTTPError` raised for a non-2xx status by `raise_for_status`, a 401
included) maps to `{"error": {"message": str(e)}}`.  Nothing is retried, no
token is cleared, and no OAuth flow is run on any path. -/
def httpRequest (env : HttpEnv) (timeout : Nat) : HttpResult :=
  if optStrFalsy env.url then
    { result := .jobj [("error", .jobj [("message", .jstr ("HTTP request attempted without a URL."))])],
      postsMade := 0, oauthFlowsRun := 0, tokenCleared := false }
  else
    let _headers := dictUpdate
      [("Content-Type", "application/json"), ("Accept", "application/json")]
      env.requestHeaders
    match env.post with
    | .ok status body =>
      if 400 ≤ status then
        { result := .jobj [("error", .jobj [("message", .jstr (httpErrorText status))])],
          postsMade := 1, oauthFlowsRun := 0, tokenCleared := false }
      else
        match body with
        | some j =>
          { result := j, postsMade := 1, oauthFlowsRun := 0, tokenCleared := false }
        | none =>
          { result := .jobj [("error", .jobj [("message", .jstr ("Invalid JSON in response body."))])],
            postsMade := 1, oauthFlowsRun := 0, tokenCleared := false }
    | .timeoutExc =>
      { result := .jobj [("error", .jobj [("code", .jnum (-32000)),
          ("message", .jstr ("HTTP request timed out after " ++ toString timeout ++ " seconds."))])],
        postsMade := 1, oauthFlowsRun := 0, tokenCleared := false }
    | .reqExc m =>
      { result := .jobj [("error", .jobj [("message", .jstr m)])],
        postsMade := 1, oauthFlowsRun := 0, tokenCleared := false }

/-! ## JSON-RPC calls: `MCPClient.list_tools` and `MCPClient.execute_tool` -/

/-- The `tools/list` envelope (lines 386-391). -/
def listToolsPayload (requestId : String) : JValue :=
  .jobj [("jsonrpc", .jstr ("2.0")), ("id", .jstr requestId),
         ("method", .jstr ("tools/list")), ("params", .jobj [])]

/-- The `tools/call` envelope (lines 419-428). -/
def callToolPayload (requestId toolName : String)
    (parameters : List (String × JValue)) (stream : Bool) : JValue :=
  .jobj [("jsonrpc", .jstr ("2.0")), ("id", .jstr requestId),
         ("method", .jstr ("tools/call")),
         ("params", .jobj [("name", .jstr toolName),
                           ("arguments", .jobj parameters),
                           ("stream", .jbool stream)])]

/-- Model of `MCPClient.list_tools` (lines 383-414), with `respond` standing
for `_make_request` (the response dict it returns) and `requestId` for the
generated uuid.  An empty/error response yields no tools; a response whose
`id` differing from that of the request yields no tools (the mismatch is logged as
an error); otherwise the tools are read from `result.tools`. -/
def listTools (respond : JValue → List (String × JValue)) (requestId : String) : JValue :=
  let rd := respond (listToolsPayload requestId)
  if rd.isEmpty || hasKey rd ("error") then .jarr []
  else if lookupKey rd ("id") != some (.jstr requestId) then .jarr []
  else jget (jget (.jobj rd) ("result") (.jobj [])) ("tools") (.jarr [])

/-- The value `execute_tool` hands back on the non-streaming path: joined
text content, an `{"error": ...}` dict, or the raw `result` object when it
carries no text content. -/
inductive ExecToolResult where
  | text (s : String)
  | errorResult (msg : String)
  | raw (v : JValue)
deriving Repr

/-- Python `str(x)` as used in the error f-string: strings stay themselves,
other JSON values are rendered. -/
def jDisplay : JValue → String
  | .jstr s => s
  | v => dumpsVal v

/-- Collect the text defaults over `content` entries whose `type` is
the string `text` (lines 444 and analogous). -/
def textContentParts (content : JValue) : List String :=
  match content with
  | .jarr items =>
    (items.filter (fun it => jget it ("type") .jnull == .jstr ("text"))).map
      (fun it => jDisplay (jget it ("text") (.jstr (""))))
  | _ => []

/-- Model of the non-streaming path of `MCPClient.execute_tool`
(lines 432-445): send the `tools/call` envelope, turn an empty or
`error`-carrying response into an error dict, honor the `isError` flag of the result
flag, and otherwise join the text content (falling back to the raw result
object).  Note: unlike `list_tools`, no comparison of the response `id`
against the id of the request is performed. -/
def executeToolNS (respond : JValue → List (String × JValue))
    (requestId toolName : String) (parameters : List (String × JValue))
    (serverName : String) : ExecToolResult :=
  let rd := respond (callToolPayload requestId toolName parameters false)
  if rd.isEmpty || hasKey rd ("error") then
    let errorDetails := (lookupKey rd ("error")).getD (.jobj [])
    let msg := jDisplay (jget errorDetails ("message") (.jstr ("Unknown error")))
    .errorResult ("MCP tool execution error: " ++ msg)
  else
    let result := jget (.jobj rd) ("result") (.jobj [])
    if jTruthy (jget result ("isError") .jnull) then
      .errorResult ("Tool \x27" ++ toolName ++ "\x27 on server \x27" ++ serverName ++
        "\x27 reported an execution error.")
    else
      let contentParts := textContentParts (jget result ("content") (.jarr []))
      if contentParts.isEmpty then .raw result
      else .text (String.intercalate ("\n") contentParts)

/-- `d[key] = v` on a JSON dict (replace the entry or append it). -/
def setKey (kvs : List (String × JValue)) (key : String) (v : JValue) :
    List (String × JValue) :=
  if kvs.any (fun kv => kv.1 == key) then
    kvs.map (fun kv => if kv.1 == key then (kv.1, v) else kv)
  else kvs ++ [(key, v)]

/-! ## stdio transport: `MCPClient._stdio_request` and
`MCPClient._stdio_streaming_request` -/

/-- One line as read from the stdout of the child: end of stream (`readline`
returns an empty string), a line that is not JSON, or a parsed JSON document. -/
inductive StdioLine where
  | eofLine
  | junk (s : String)
  | jsonLine (v : JValue)

/-- Errors `_stdio_request` raises: the bounded-wait timeout or an IO
error. -/
inductive StdioError where
  | timeoutError (msg : String)
  | ioError (msg : String)
deriving Repr, DecidableEq

/-- Model of `MCPClient._stdio_request` (lines 331-357): with the pipes
unavailable raise an `IOError`; `select` the stdout with the configured
timeout and raise `TimeoutError` when nothing becomes readable in time; then
read one line, raising on end-of-stream or a JSON decode failure.
`ready` is the outcome of the bounded `select` wait. -/
def stdioRequest (procUp : Bool) (ready : Bool) (line : StdioLine) :
    Except StdioError JValue :=
  if !procUp then .error (.ioError ("MCP proxy stdin or stdout is not available."))
  else if !ready then .error (.timeoutError ("Timeout waiting for response from MCP proxy."))
  else
    match line with
    | .eofLine => .error (.ioError ("MCP proxy connection closed unexpectedly or sent empty response."))
    | .junk s => .error (.ioError ("Failed to decode JSON response from MCP proxy. Response: " ++ s))
    | .jsonLine v => .ok v

/-- Python membership of the key `error` in a parsed JSON-RPC event (the events on this
stream are objects; membership in a non-object is never an `error` hit for
the shapes this protocol produces). -/
def hasKeyJ (v : JValue) (key : String) : Bool :=
  match v with
  | .jobj kvs => hasKey kvs key
  | _ => false

/-- What the `i`-th blocking `readline()` of the streaming loop does: either
a line is (eventually) delivered, or the child neither writes nor closes and
the call never returns. -/
inductive StdioRead where
  | blocked
  | line (l : StdioLine)

/-- A stdio child that never writes a response line and never closes its
stdout: every `readline()` blocks. -/
def neverWrites : Nat → StdioRead :=
  fun _ => .blocked

/-- How a run of the streaming read loop ends, step-indexed by `fuel` (the
number of `readline()` calls examined): the function returns a value, the
current `readline()` blocks forever (the loop never returns to the caller),
or the index budget ran out before either happened. -/
inductive StreamOutcome where
  | returns (v : ExecToolResult)
  | blocksForever
  | fuelOut
deriving Repr

/-- The `while True` read loop of `_stdio_streaming_request`
(lines 467-497): read a line with **no timeout guard**; stop on
end-of-stream (joining what was accumulated), return an error event whose
`id` matches the request, extend the accumulator on `tool.stream.partial`,
replace it and stop on `tool.stream.final`, and skip undecodable or unknown
lines.  `acc` is `full_response_content`. -/
def stdioStreamingLoop (reqId : JValue) (reads : Nat → StdioRead) :
    Nat → Nat → List String → StreamOutcome
  | 0, _, _ => .fuelOut
  | fuel + 1, i, acc =>
    match reads i with
    | .blocked => .blocksForever
    | .line .eofLine => .returns (.text (String.intercalate ("\n") acc))
    | .line (.junk _) => stdioStreamingLoop reqId reads fuel (i + 1) acc
    | .line (.jsonLine ev) =>
      if hasKeyJ ev ("error") && jget ev ("id") .jnull == reqId then
        .returns (.raw ev)
      else if jget ev ("method") .jnull == .jstr ("tool.stream.partial") then
        let content := jget (jget ev ("params") (.jobj [])) ("content") (.jarr [])
        let tp := textContentParts content
        let acc2 := if tp.isEmpty then acc else acc ++ tp
        stdioStreamingLoop reqId reads fuel (i + 1) acc2
      else if jget ev ("method") .jnull == .jstr ("tool.stream.final") then
        let content := jget (jget ev ("params") (.jobj [])) ("content") (.jarr [])
        let tp := textContentParts content
        let acc2 := if tp.isEmpty then acc else tp
        .returns (.text (String.intercalate ("\n") acc2))
      else stdioStreamingLoop reqId reads fuel (i + 1) acc

/-- Model of `MCPClient._stdio_streaming_request` (lines 454-503): an error
dict when the subprocess is not up, else write the request and enter the
unguarded read loop. -/
def stdioStreamingRequest (procUp : Bool) (reads : Nat → StdioRead)
    (reqId : JValue) (fuel : Nat) : StreamOutcome :=
  if !procUp then
    .returns (.raw (.jobj [("error", .jobj [("message", .jstr ("Subprocess not running for stdio streaming."))])]))
  else
    stdioStreamingLoop reqId reads fuel 0 []

/-! ## Concrete scenario inputs used by witnesses and counterexamples -/

/-- A concrete tool call the model keeps requesting. -/
def exFC : FunctionCall :=
  { name := "echo", args := [] }

/-- A model that answers every `send_message` with the same tool call. -/
def exScript : Nat → ModelResponse :=
  fun _ => { functionCall := some exFC, textParts := [], finishReason := none }

/-- A well-behaved `echo` executor returning a dict. -/
def exEchoEntry : ToolEntry :=
  { legacyExecute := true, helpText := none,
    run := fun _ => .dictResult [("ok", .jbool true)] }

/-- A registry with one well-behaved `echo` tool. -/
def exReg : ToolRegistry :=
  { tools := [("echo", exEchoEntry)], toolListSummary := "summary" }

/-- An `echo` executor that raises on every invocation. -/
def exRaiseEntry : ToolEntry :=
  { legacyExecute := true, helpText := none, run := fun _ => .raised ("boom") }

/-- A registry whose `echo` executor raises on every invocation. -/
def exRaiseReg : ToolRegistry :=
  { tools := [("echo", exRaiseEntry)], toolListSummary := "summary" }

/-- A remote tool definition whose schema nests a forbidden keyword under
`anyOf`, which the recursion of the sanitizer never visits. -/
def exToolDef : List (String × JValue) :=
  [("name", .jstr ("lookup")), ("description", .jstr ("plain")),
   ("inputSchema", .jobj [("type", .jstr ("object")),
     ("anyOf", .jarr [.jobj [("minimum", .jnum 0)]])])]

/-- A remote tool definition whose schema nests only through `properties`,
with a forbidden keyword and backticks for the sanitizer to remove. -/
def c4WitnessDef : List (String × JValue) :=
  [("name", .jstr ("echo")), ("description", .jstr ("has `tick`")),
   ("inputSchema", .jobj [("minimum", .jnum 1), ("description", .jstr ("d`d"))])]

/-- The declaration `_load_remote_tools` registers for `c4WitnessDef`. -/
def c4WitnessDecl : ToolDeclaration :=
  { name := "echo", description := "has tick",
    parameters := [("description", .jstr ("dd"))] }

/-- A `tools/call` response whose `id` does not match the request. -/
def exMismatchResp : List (String × JValue) :=
  [("jsonrpc", .jstr ("2.0")), ("id", .jstr ("OTHER")),
   ("result", .jobj [("content",
     .jarr [.jobj [("type", .jstr ("text")), ("text", .jstr ("hi"))]])])]

/-- An HTTP environment whose POST comes back 401 Unauthorized. -/
def c7env : HttpEnv :=
  { url := some ("https://mcp.example/rpc"), requestHeaders := [],
    post := .ok 401 (some (.jobj [])) }

/-- An HTTP environment whose POST comes back 500. -/
def c7env500 : HttpEnv :=
  { url := some ("https://mcp.example/rpc"), requestHeaders := [],
    post := .ok 500 (some (.jobj [])) }

/-- An OAuth environment with a configured client secret and a successful,
state-matching callback. -/
def c8env : OAuthEnv :=
  { baseUrl := some ("https://s"), clientId := some ("cid"),
    clientSecret := some ("sec"), codeVerifier := "ver", state := "st",
    serverStart := true, callbackCode := some ("code"),
    callbackState := some ("st"),
    tokenEndpoint := fun _ => .ok 200 (some [("access_token", .jstr ("tok"))]) }

/-- The one token-endpoint request `c8env` produces. -/
def c8reqExpected : TokenRequest :=
  { url := "https://s/token",
    payloadData := [("grant_type", "authorization_code"), ("code", "code"),
      ("redirect_uri", "http://127.0.0.1:8080/"), ("client_id", "cid"),
      ("code_verifier", "ver"), ("client_secret", "sec")],
    headers := [("Accept", "application/json")] }

/-- The same flow but with a callback whose `state` does not match. -/
def c5envBad : OAuthEnv :=
  { baseUrl := some ("https://s"), clientId := some ("cid"),
    clientSecret := some ("sec"), codeVerifier := "ver", state := "st",
    serverStart := true, callbackCode := some ("code"),
    callbackState := some ("FORGED"),
    tokenEndpoint := fun _ => .ok 200 (some [("access_token", .jstr ("tok"))]) }

end AiThing
namespace AiThing

/-! ## Helper lemmas -/

theorem stripBackticks_no_backtick (s : String) :
    '`' ∉ (stripBackticks s).data := by
  have h : (stripBackticks s).data = s.data.filter (fun c => c != '`') := rfl
  rw [h]
  simp [List.mem_filter]

theorem cleanDescription_clean (v : JValue) :
    descriptionClean (cleanDescriptionValue v) = true := by
  cases v <;> simp [cleanDescriptionValue, descriptionClean, stripBackticks_no_backtick]

theorem sanitizeSchema_sanitized (kvs : List (String × JValue)) :
    schemaSanitized (sanitizeSchema kvs) = true := by
  refine sanitizeSchema.induct
    (fun kvs => schemaSanitized (sanitizeSchema kvs) = true)
    (fun v => dictSanitized (sanitizeIfDict v) = true)
    (fun v => propsSanitized (sanitizeProperties v) = true)
    (fun props => propsListSanitized (sanitizePropList props) = true)
    ?_ ?_ ?_ ?_ ?_ ?_ ?_ ?_ ?_ ?_ ?_ ?_ kvs
  · intro kvs ih
    simpa [sanitizeIfDict, dictSanitized] using ih
  · intro t ht
    cases t <;> simp [sanitizeIfDict, dictSanitized]
    · exact absurd rfl (ht _)
  · intro kvs ih
    simpa [sanitizeProperties, propsSanitized] using ih
  · intro t ht
    cases t <;> simp [sanitizeProperties, propsSanitized]
    · exact absurd rfl (ht _)
  · simp [sanitizeSchema, schemaSanitized]
  · intro k v rest hk ih
    have hk' : k ∈ unsupportedKeys := by simpa using hk
    simp [sanitizeSchema, hk', ih]
  · intro k v rest hk hdesc ih
    have hk' : k ∉ unsupportedKeys := by simpa using hk
    have hd' : k = "description" := by simpa using hdesc
    subst hd'
    simp [sanitizeSchema, schemaSanitized, ih, cleanDescription_clean]
    exact hk'
  · intro k v rest hk hd hp ihv ih
    have hk' : k ∉ unsupportedKeys := by simpa using hk
    have hp' : k = "properties" := by simpa using hp
    subst hp'
    simp [sanitizeSchema, schemaSanitized, ih, ihv]
    exact hk'
  · intro k v rest hk hd hp hi ihv ih
    have hk' : k ∉ unsupportedKeys := by simpa using hk
    have hi' : k = "items" := by simpa using hi
    subst hi'
    simp [sanitizeSchema, schemaSanitized, ih, ihv]
    exact hk'
  · intro k v rest hk hd hp hi ih
    have hk' : k ∉ unsupportedKeys := by simpa using hk
    have hd' : ¬ k = "description" := by simpa using hd
    have hp' : ¬ k = "properties" := by simpa using hp
    have hi' : ¬ k = "items" := by simpa using hi
    simp [sanitizeSchema, schemaSanitized, hk', hd', hp', hi', ih]
  · simp [sanitizePropList, propsListSanitized]
  · intro k v rest ihv ih
    simp [sanitizePropList, propsListSanitized, ihv, ih]

theorem chatLoop_dispatches_le (reg : ToolRegistry) (script : Nat → ModelResponse) :
    ∀ fuel payload prev rep idx,
      (chatLoop reg script fuel payload prev rep idx).dispatches ≤ fuel := by
  intro fuel
  induction fuel with
  | zero =>
    intro payload prev rep idx
    simp [chatLoop]
  | succ n ih =>
    intro payload prev rep idx
    simp only [chatLoop]
    split
    · split
      · split
        · simp
        · simpa using Nat.succ_le_succ (ih _ _ _ _)
      · simpa using Nat.succ_le_succ (ih _ _ _ _)
    · simp

theorem chatLoop_sent_head (reg : ToolRegistry) (script : Nat → ModelResponse)
    (fuel : Nat) (payload : Payload) (prev : List String)
    (rep : List (String × Nat)) (idx : Nat) :
    ∃ t, (chatLoop reg script fuel payload prev rep idx).sent = payload :: t := by
  cases fuel with
  | zero => exact ⟨[], rfl⟩
  | succ n =>
    simp only [chatLoop]
    split
    · split
      · split
        · exact ⟨_, rfl⟩
        · exact ⟨_, rfl⟩
      · exact ⟨_, rfl⟩
    · exact ⟨[], rfl⟩

theorem chatLoop_zero (reg : ToolRegistry) (script : Nat → ModelResponse)
    (payload : Payload) (prev : List String) (rep : List (String × Nat)) (idx : Nat) :
    chatLoop reg script 0 payload prev rep idx =
      { reply :=
          if responseTextOf (script idx) != "" then responseTextOf (script idx)
          else
            match (script idx).functionCall with
            | some fc =>
              "(Task ended after reaching tool call limit. Model wanted to call: " ++
              fc.name ++ ")"
            | none =>
              "(Task completed, but model provided no final summary after reaching tool call limit.)",
        dispatches := 0, sent := [payload], ending := .maxReached } := by
  rfl

theorem chatLoop_succ_text (reg : ToolRegistry) (script : Nat → ModelResponse)
    (n : Nat) (payload : Payload) (prev : List String) (rep : List (String × Nat))
    (idx : Nat) (h : (script idx).functionCall = none) :
    chatLoop reg script (n + 1) payload prev rep idx =
      { reply :=
          if responseTextOf (script idx) != "" then responseTextOf (script idx)
          else emptyTextFallback (script idx),
        dispatches := 0, sent := [payload], ending := .textReply } := by
  simp only [chatLoop, h]

theorem chatLoop_succ_fresh (reg : ToolRegistry) (script : Nat → ModelResponse)
    (n : Nat) (payload : Payload) (prev : List String) (rep : List (String × Nat))
    (idx : Nat) (fc : FunctionCall) (h : (script idx).functionCall = some fc)
    (hhit : prev.contains (toolCallKey fc.name fc.args) = false) :
    chatLoop reg script (n + 1) payload prev rep idx =
      (let rest := chatLoop reg script n
        (.toolResult fc.name (dispatchTool (reg.getToolInstance fc.name) fc.name fc.args))
        (prev ++ [toolCallKey fc.name fc.args]) rep (idx + 1)
      { reply := rest.reply, dispatches := rest.dispatches + 1,
        sent := payload :: rest.sent, ending := rest.ending }) := by
  have hmem : toolCallKey fc.name fc.args ∉ prev := by simpa using hhit
  simp only [chatLoop, h]
  simp [hmem]

theorem chatLoop_succ_repeat_low (reg : ToolRegistry) (script : Nat → ModelResponse)
    (n : Nat) (payload : Payload) (prev : List String) (rep : List (String × Nat))
    (idx : Nat) (fc : FunctionCall) (h : (script idx).functionCall = some fc)
    (hhit : prev.contains (toolCallKey fc.name fc.args) = true)
    (hlow : ¬ 3 ≤ getRepCount rep (toolCallKey fc.name fc.args) + 1) :
    chatLoop reg script (n + 1) payload prev rep idx =
      (let key := toolCallKey fc.name fc.args
      let rest := chatLoop reg script n
        (.toolResult fc.name (dispatchTool (reg.getToolInstance fc.name) fc.name fc.args))
        (prev ++ [key]) (setRepCount rep key (getRepCount rep key + 1)) (idx + 1)
      { reply := rest.reply, dispatches := rest.dispatches + 1,
        sent := payload :: rest.sent, ending := rest.ending }) := by
  have hmem : toolCallKey fc.name fc.args ∈ prev := by simpa using hhit
  simp only [chatLoop, h]
  simp [hmem, hlow]

theorem chatLoop_succ_repeat_high (reg : ToolRegistry) (script : Nat → ModelResponse)
    (n : Nat) (payload : Payload) (prev : List String) (rep : List (String × Nat))
    (idx : Nat) (fc : FunctionCall) (h : (script idx).functionCall = some fc)
    (hhit : prev.contains (toolCallKey fc.name fc.args) = true)
    (hhigh : 3 ≤ getRepCount rep (toolCallKey fc.name fc.args) + 1) :
    chatLoop reg script (n + 1) payload prev rep idx =
      { reply := extractTextFromResponse (script (idx + 1)), dispatches := 0,
        sent := [payload, .userText (forcedSummaryPromptFor fc.name)],
        ending := .forcedRepetition } := by
  have hmem : toolCallKey fc.name fc.args ∈ prev := by simpa using hhit
  simp only [chatLoop, h]
  simp [hmem, hhigh]

theorem chatLoop_reach_max (reg : ToolRegistry) (script : Nat → ModelResponse) :
    ∀ fuel payload prev rep idx,
      (chatLoop reg script fuel payload prev rep idx).dispatches = fuel →
      (chatLoop reg script fuel payload prev rep idx).ending = .maxReached ∧
      (chatLoop reg script fuel payload prev rep idx).sent.length = fuel + 1 ∧
      (1 ≤ fuel → ∃ pre nm d,
        (chatLoop reg script fuel payload prev rep idx).sent =
          pre ++ [Payload.toolResult nm d]) := by
  intro fuel
  induction fuel with
  | zero =>
    intro payload prev rep idx _
    rw [chatLoop_zero]
    refine ⟨rfl, rfl, by omega⟩
  | succ n ih =>
    intro payload prev rep idx h
    cases hfc : (script idx).functionCall with
    | none =>
      rw [chatLoop_succ_text reg script n payload prev rep idx hfc] at h
      simp at h
    | some fc =>
      cases hhit : prev.contains (toolCallKey fc.name fc.args) with
      | false =>
        rw [chatLoop_succ_fresh reg script n payload prev rep idx fc hfc hhit] at h ⊢
        simp only at h ⊢
        have hd : (chatLoop reg script n
            (.toolResult fc.name (dispatchTool (reg.getToolInstance fc.name) fc.name fc.args))
            (prev ++ [toolCallKey fc.name fc.args]) rep (idx + 1)).dispatches = n := by omega
        obtain ⟨e1, e2, e3⟩ := ih _ _ _ _ hd
        refine ⟨e1, by simp [e2], ?_⟩
        intro _
        rcases Nat.eq_zero_or_pos n with hn | hn
        · subst hn
          obtain ⟨t, ht⟩ := chatLoop_sent_head reg script 0
            (.toolResult fc.name (dispatchTool (reg.getToolInstance fc.name) fc.name fc.args))
            (prev ++ [toolCallKey fc.name fc.args]) rep (idx + 1)
          have hlen := e2
          rw [ht] at hlen ⊢
          simp at hlen
          subst hlen
          exact ⟨[payload], _, _, rfl⟩
        · obtain ⟨pre, nm, d, hpre⟩ := e3 hn
          rw [hpre]
          exact ⟨payload :: pre, nm, d, rfl⟩
      | true =>
        by_cases hhigh : 3 ≤ getRepCount rep (toolCallKey fc.name fc.args) + 1
        · rw [chatLoop_succ_repeat_high reg script n payload prev rep idx fc hfc hhit hhigh] at h
          simp at h
        · rw [chatLoop_succ_repeat_low reg script n payload prev rep idx fc hfc hhit hhigh] at h ⊢
          simp only at h ⊢
          have hd : (chatLoop reg script n
              (.toolResult fc.name (dispatchTool (reg.getToolInstance fc.name) fc.name fc.args))
              (prev ++ [toolCallKey fc.name fc.args])
              (setRepCount rep (toolCallKey fc.name fc.args)
                (getRepCount rep (toolCallKey fc.name fc.args) + 1)) (idx + 1)).dispatches = n := by
            omega
          obtain ⟨e1, e2, e3⟩ := ih _ _ _ _ hd
          refine ⟨e1, by simp [e2], ?_⟩
          intro _
          rcases Nat.eq_zero_or_pos n with hn | hn
          · subst hn
            obtain ⟨t, ht⟩ := chatLoop_sent_head reg script 0
              (.toolResult fc.name (dispatchTool (reg.getToolInstance fc.name) fc.name fc.args))
              (prev ++ [toolCallKey fc.name fc.args])
              (setRepCount rep (toolCallKey fc.name fc.args)
                (getRepCount rep (toolCallKey fc.name fc.args) + 1)) (idx + 1)
            have hlen := e2
            rw [ht] at hlen ⊢
            simp at hlen
            subst hlen
            exact ⟨[payload], _, _, rfl⟩
          · obtain ⟨pre, nm, d, hpre⟩ := e3 hn
            rw [hpre]
            exact ⟨payload :: pre, nm, d, rfl⟩

theorem chatLoop_identical_trace (reg : ToolRegistry) (script : Nat → ModelResponse)
    (prompt : String) (fc : FunctionCall)
    (hscript : ∀ i, (script i).functionCall = some fc) :
    ∀ k, chatLoop reg script (k + 3) (.userText prompt) [] [] 0 =
      { reply := extractTextFromResponse (script 3), dispatches := 2,
        sent := [Payload.userText prompt,
          .toolResult fc.name (dispatchTool (reg.getToolInstance fc.name) fc.name fc.args),
          .toolResult fc.name (dispatchTool (reg.getToolInstance fc.name) fc.name fc.args),
          .userText (forcedSummaryPromptFor fc.name)],
        ending := .forcedRepetition } := by
  intro k
  rw [show k + 3 = k + 2 + 1 from rfl]
  rw [chatLoop_succ_fresh reg script (k + 2) (.userText prompt) [] [] 0 fc (hscript 0) rfl]
  simp only
  rw [show k + 2 = k + 1 + 1 from rfl]
  rw [chatLoop_succ_repeat_low reg script (k + 1)
    (.toolResult fc.name (dispatchTool (reg.getToolInstance fc.name) fc.name fc.args))
    ([] ++ [toolCallKey fc.name fc.args]) [] (0 + 1) fc (hscript (0 + 1))
    (by simp) (by simp [getRepCount])]
  simp only
  rw [chatLoop_succ_repeat_high reg script k
    (.toolResult fc.name (dispatchTool (reg.getToolInstance fc.name) fc.name fc.args))
    (([] ++ [toolCallKey fc.name fc.args]) ++ [toolCallKey fc.name fc.args])
    (setRepCount [] (toolCallKey fc.name fc.args)
      (getRepCount [] (toolCallKey fc.name fc.args) + 1))
    (0 + 1 + 1) fc (hscript (0 + 1 + 1))
    (by simp) (by simp [getRepCount, setRepCount])]

/-! ## Claim theorems -/

/-- C1: when the model requests the same tool with the same canonicalized
arguments on every turn, the loop dispatches the executor at most twice for
any budget, and with enough budget dispatches exactly twice, sends the
forced "no more tools" instruction as the final model message on the third
repeat, and returns the text of the model response to that instruction. -/
theorem c1_repetition_guard (reg : ToolRegistry) (script : Nat → ModelResponse)
    (prompt : String) (fc : FunctionCall)
    (hscript : ∀ i, (script i).functionCall = some fc) :
    (∀ m, (runChat reg script prompt m).dispatches ≤ 2) ∧
    (∀ m, 3 ≤ m →
      (runChat reg script prompt m).dispatches = 2 ∧
      (runChat reg script prompt m).ending = .forcedRepetition ∧
      (runChat reg script prompt m).reply = extractTextFromResponse (script 3) ∧
      ∃ d1 d2, (runChat reg script prompt m).sent =
        [Payload.userText prompt, .toolResult fc.name d1, .toolResult fc.name d2,
         .userText (forcedSummaryPromptFor fc.name)]) := by
  have main := chatLoop_identical_trace reg script prompt fc hscript
  constructor
  · intro m
    rcases m with _ | _ | _ | k
    · exact le_trans (chatLoop_dispatches_le reg script 0 _ _ _ _) (by omega)
    · exact le_trans (chatLoop_dispatches_le reg script 1 _ _ _ _) (by omega)
    · exact le_trans (chatLoop_dispatches_le reg script 2 _ _ _ _) (by omega)
    · show (runChat reg script prompt (k + 3)).dispatches ≤ 2
      unfold runChat
      rw [main k]
  · intro m hm
    obtain ⟨k, rfl⟩ : ∃ k, m = k + 3 := ⟨m - 3, by omega⟩
    unfold runChat
    rw [main k]
    exact ⟨rfl, rfl, rfl, ⟨_, _, rfl⟩⟩

/-- Witness for C1: three identical `echo` calls against a budget of five
dispatch exactly twice and end in the forced summary. -/
theorem c1_repetition_guard_witness :
    (runChat exReg exScript ("hi") 5).dispatches = 2 ∧
    (runChat exReg exScript ("hi") 5).ending = .forcedRepetition := by
  have h := c1_repetition_guard exReg exScript ("hi") exFC (fun i => rfl)
  exact ⟨(h.2 5 (by omega)).1, (h.2 5 (by omega)).2.1⟩

/-- C2: tool dispatches never exceed `max_tool_calls`; when the dispatch
count reaches the budget (and the budget is positive), the run ends through
the max-tool-calls epilogue, having made exactly one model call more than
the budget, and that final model call carries a tool result. -/
theorem c2_tool_call_budget (reg : ToolRegistry) (script : Nat → ModelResponse)
    (prompt : String) (maxToolCalls : Nat) :
    (runChat reg script prompt maxToolCalls).dispatches ≤ maxToolCalls ∧
    (1 ≤ maxToolCalls →
      (runChat reg script prompt maxToolCalls).dispatches = maxToolCalls →
      (runChat reg script prompt maxToolCalls).ending = .maxReached ∧
      (runChat reg script prompt maxToolCalls).sent.length = maxToolCalls + 1 ∧
      ∃ pre nm d, (runChat reg script prompt maxToolCalls).sent =
        pre ++ [Payload.toolResult nm d]) := by
  refine ⟨chatLoop_dispatches_le reg script maxToolCalls _ _ _ _, ?_⟩
  intro hmax hreach
  obtain ⟨e1, e2, e3⟩ := chatLoop_reach_max reg script maxToolCalls
    (.userText prompt) [] [] 0 hreach
  exact ⟨e1, e2, e3 hmax⟩

/-- Witness for C2: with a budget of one and a model that always asks for a
tool, exactly one dispatch happens and the run makes two model calls, ending
in the max-reached epilogue. -/
theorem c2_tool_call_budget_witness :
    (runChat exReg exScript ("hi") 1).dispatches ≤ 1 ∧
    (runChat exReg exScript ("hi") 1).ending = .maxReached ∧
    (runChat exReg exScript ("hi") 1).sent.length = 2 := by
  have h := c2_tool_call_budget exReg exScript ("hi") 1
  have h2 := h.2 (by omega) (by rfl)
  exact ⟨h.1, h2.1, h2.2.1⟩

/-- C3: when a dispatched executor raises, the loop swallows the exception,
wraps it as `{"error": "<branch lead><message>"}`, sends that dict to the
model as the next payload, and carries on with the remaining budget: the
run equals the continuation started from the error payload, and the message
after the current one is exactly that error-shaped tool result. -/
theorem c3_tool_error_captured (reg : ToolRegistry) (script : Nat → ModelResponse)
    (fuel : Nat) (payload : Payload) (prev : List String)
    (rep : List (String × Nat)) (idx : Nat) (fc : FunctionCall)
    (entry : ToolEntry) (e : String)
    (hresp : (script idx).functionCall = some fc)
    (hentry : reg.getToolInstance fc.name = some entry)
    (hrun : entry.run fc.args = .raised e)
    (hguard : prev.contains (toolCallKey fc.name fc.args) = false ∨
              ¬ 3 ≤ getRepCount rep (toolCallKey fc.name fc.args) + 1) :
    chatLoop reg script (fuel + 1) payload prev rep idx =
      { reply := (chatLoop reg script fuel
          (.toolResult fc.name
            [("error", JValue.jstr (errorMsgLead entry.legacyExecute fc.name ++ e))])
          (prev ++ [toolCallKey fc.name fc.args])
          (if prev.contains (toolCallKey fc.name fc.args) then
            setRepCount rep (toolCallKey fc.name fc.args)
              (getRepCount rep (toolCallKey fc.name fc.args) + 1)
          else rep) (idx + 1)).reply,
        dispatches := (chatLoop reg script fuel
          (.toolResult fc.name
            [("error", JValue.jstr (errorMsgLead entry.legacyExecute fc.name ++ e))])
          (prev ++ [toolCallKey fc.name fc.args])
          (if prev.contains (toolCallKey fc.name fc.args) then
            setRepCount rep (toolCallKey fc.name fc.args)
              (getRepCount rep (toolCallKey fc.name fc.args) + 1)
          else rep) (idx + 1)).dispatches + 1,
        sent := payload :: (chatLoop reg script fuel
          (.toolResult fc.name
            [("error", JValue.jstr (errorMsgLead entry.legacyExecute fc.name ++ e))])
          (prev ++ [toolCallKey fc.name fc.args])
          (if prev.contains (toolCallKey fc.name fc.args) then
            setRepCount rep (toolCallKey fc.name fc.args)
              (getRepCount rep (toolCallKey fc.name fc.args) + 1)
          else rep) (idx + 1)).sent,
        ending := (chatLoop reg script fuel
          (.toolResult fc.name
            [("error", JValue.jstr (errorMsgLead entry.legacyExecute fc.name ++ e))])
          (prev ++ [toolCallKey fc.name fc.args])
          (if prev.contains (toolCallKey fc.name fc.args) then
            setRepCount rep (toolCallKey fc.name fc.args)
              (getRepCount rep (toolCallKey fc.name fc.args) + 1)
          else rep) (idx + 1)).ending } ∧
    ∃ tail,
      (chatLoop reg script (fuel + 1) payload prev rep idx).sent =
        payload :: Payload.toolResult fc.name
          [("error", JValue.jstr (errorMsgLead entry.legacyExecute fc.name ++ e))] :: tail := by
  have herr : dispatchTool (reg.getToolInstance fc.name) fc.name fc.args =
      [("error", JValue.jstr (errorMsgLead entry.legacyExecute fc.name ++ e))] := by
    simp [dispatchTool, hentry, hrun]
  cases hc : prev.contains (toolCallKey fc.name fc.args) with
  | false =>
    have hmem : toolCallKey fc.name fc.args ∉ prev := by simpa using hc
    have heq := chatLoop_succ_fresh reg script fuel payload prev rep idx fc hresp hc
    rw [herr] at heq
    simp only at heq
    constructor
    · rw [heq]
      simp [hmem]
    · obtain ⟨t, ht⟩ := chatLoop_sent_head reg script fuel
        (.toolResult fc.name
          [("error", JValue.jstr (errorMsgLead entry.legacyExecute fc.name ++ e))])
        (prev ++ [toolCallKey fc.name fc.args]) rep (idx + 1)
      refine ⟨t, ?_⟩
      rw [heq]
      simp [ht]
  | true =>
    have hmem : toolCallKey fc.name fc.args ∈ prev := by simpa using hc
    have hlow : ¬ 3 ≤ getRepCount rep (toolCallKey fc.name fc.args) + 1 := by
      rcases hguard with hfresh | hlow
      · rw [hc] at hfresh
        cases hfresh
      · exact hlow
    have heq := chatLoop_succ_repeat_low reg script fuel payload prev rep idx fc hresp hc hlow
    rw [herr] at heq
    simp only at heq
    constructor
    · rw [heq]
      simp [hmem]
    · obtain ⟨t, ht⟩ := chatLoop_sent_head reg script fuel
        (.toolResult fc.name
          [("error", JValue.jstr (errorMsgLead entry.legacyExecute fc.name ++ e))])
        (prev ++ [toolCallKey fc.name fc.args])
        (setRepCount rep (toolCallKey fc.name fc.args)
          (getRepCount rep (toolCallKey fc.name fc.args) + 1)) (idx + 1)
      refine ⟨t, ?_⟩
      rw [heq]
      simp [ht]

/-- Witness for C3: an `echo` executor that raises "boom" produces the
error-shaped payload as the next message sent to the model. -/
theorem c3_tool_error_captured_witness :
    (chatLoop exRaiseReg exScript 1 (.userText ("p")) [] [] 0).sent.take 2 =
      [Payload.userText ("p"),
       Payload.toolResult ("echo")
         [("error", JValue.jstr (errorMsgLead true ("echo") ++ "boom"))]] := by
  obtain ⟨heq, tail, htail⟩ :=
    c3_tool_error_captured exRaiseReg exScript 0 (.userText ("p")) [] [] 0 exFC
      exRaiseEntry ("boom") rfl (by rfl) rfl (Or.inl rfl)
  rw [htail]
  rfl

end AiThing

namespace AiThing

/-- Counterexample for C4: a forbidden keyword (`minimum`) nested under
`anyOf` in the schema of an imported tool survives the whole import-and-sanitize
pipeline, so the sanitized declaration does contain a forbidden keyword at a
nesting depth the claim says is impossible. -/
theorem c4_forbidden_keyword_survives_nested :
    (importRemoteTool exToolDef).map
      (fun d => containsKeyDeep ("minimum") (.jobj d.parameters)) = some true := by
  rfl

/-- C4 (amended): for every successfully imported remote tool declaration,
the guarantee of the sanitizer holds on every node it visits — no unsupported
keyword at the top level or along nesting through dict-valued `properties`
entries and dict-valued `items`, string descriptions there backtick-free,
and the top-level description of the declaration backtick-free.  Keywords nested under
other combinators (such as `anyOf`, or a list-valued `items`) are out of the
reach of the recursion. -/
theorem c4_sanitizer_cleans_visited_nodes (toolDef : List (String × JValue))
    (decl : ToolDeclaration) (h : importRemoteTool toolDef = some decl) :
    schemaSanitized decl.parameters = true ∧ '`' ∉ decl.description.data := by
  unfold importRemoteTool at h
  split at h
  · rename_i nm hname
    split at h
    · cases h
    · split at h
      · dsimp only at h
        split at h
        · cases h
          exact ⟨sanitizeSchema_sanitized _, stripBackticks_no_backtick _⟩
        · cases h
      · dsimp only at h
        split at h
        · cases h
          exact ⟨sanitizeSchema_sanitized _, stripBackticks_no_backtick _⟩
        · cases h
      · dsimp only at h
        split at h
        · cases h
        · cases h
  · cases h

/-- Witness for C4: a concrete import whose schema nests only through
visited keys comes out fully scrubbed. -/
theorem c4_sanitizer_cleans_visited_nodes_witness :
    importRemoteTool c4WitnessDef = some c4WitnessDecl ∧
    schemaSanitized c4WitnessDecl.parameters = true ∧
    '`' ∉ c4WitnessDecl.description.data := by
  have h : importRemoteTool c4WitnessDef = some c4WitnessDecl := by rfl
  have h2 := c4_sanitizer_cleans_visited_nodes c4WitnessDef c4WitnessDecl h
  exact ⟨h, h2.1, h2.2⟩

/-- C5: when the `state` of the callback differs from the generated one (or no
truthy authorization code arrived), the flow aborts before the token
exchange: the token endpoint is never contacted and no access token is set
or persisted. -/
theorem c5_state_mismatch_fails_closed (env : OAuthEnv)
    (h : env.callbackState ≠ some env.state ∨ optStrFalsy env.callbackCode = true) :
    (performOauthFlow env).tokenRequests = [] ∧
    (performOauthFlow env).accessToken = none ∧
    (performOauthFlow env).savedToken = none := by
  unfold performOauthFlow
  split
  · exact ⟨rfl, rfl, rfl⟩
  · split
    · exact ⟨rfl, rfl, rfl⟩
    · split
      · exact ⟨rfl, rfl, rfl⟩
      · rename_i h3
        exfalso
        simp only [Bool.or_eq_true, not_or] at h3
        obtain ⟨h3a, h3b⟩ := h3
        rcases h with hstate | hcode
        · apply hstate
          simpa using h3b
        · rw [hcode] at h3a
          exact h3a rfl

/-- Witness for C5: a forged-state callback yields no token-endpoint
traffic and no token. -/
theorem c5_state_mismatch_fails_closed_witness :
    (performOauthFlow c5envBad).tokenRequests = [] ∧
    (performOauthFlow c5envBad).accessToken = none ∧
    (performOauthFlow c5envBad).savedToken = none := by
  exact c5_state_mismatch_fails_closed c5envBad (Or.inl (by simp [c5envBad]))

/-- Counterexample for C6: against a child that never writes a line, the
streaming stdio path performs an unguarded `readline()` and never returns —
it does not produce a timeout failure, contradicting the claim for the
streaming call path. -/
theorem c6_streaming_read_blocks :
    stdioStreamingRequest true neverWrites (.jstr ("id-1")) 100 = .blocksForever := by
  rfl

/-- C6 (amended): the non-streaming stdio path guards the read with the
bounded `select` and raises the timeout failure whenever nothing becomes
readable in time; the streaming stdio path has no timeout guard and blocks
forever once the child stops writing without closing the stream. -/
theorem c6_timeout_only_nonstreaming :
    (∀ line, stdioRequest true false line =
      .error (.timeoutError ("Timeout waiting for response from MCP proxy."))) ∧
    (∀ reqId fuel, 1 ≤ fuel →
      stdioStreamingRequest true neverWrites reqId fuel = .blocksForever) := by
  constructor
  · intro line
    rfl
  · intro reqId fuel h
    cases fuel with
    | zero => exact absurd h (by omega)
    | succ f => rfl

/-- Witness for C6 (amended): both conjuncts at concrete inputs. -/
theorem c6_timeout_only_nonstreaming_witness :
    stdioRequest true false (.junk ("noise")) =
      .error (.timeoutError ("Timeout waiting for response from MCP proxy.")) ∧
    stdioStreamingRequest true neverWrites (.jstr ("id-2")) 3 = .blocksForever := by
  exact ⟨c6_timeout_only_nonstreaming.1 (.junk ("noise")),
         c6_timeout_only_nonstreaming.2 (.jstr ("id-2")) 3 (by omega)⟩

/-- Counterexample for C7: a 401 response produces an error dict after a
single POST — the cached token is not cleared, the OAuth flow is not re-run,
and the request is not retried, contradicting the claimed
re-authenticate-and-retry-once behavior. -/
theorem c7_no_reauth_on_401 :
    httpRequest c7env 60 =
      { result := .jobj [("error", .jobj [("message", .jstr (httpErrorText 401))])],
        postsMade := 1, oauthFlowsRun := 0, tokenCleared := false } := by
  rfl

/-- C7 (amended): every HTTP error status (401 included) is converted by
`raise_for_status` plus the `RequestException` handler into an error dict
for that request, after exactly one POST, with no token clearing, no OAuth
re-run and no retry. -/
theorem c7_http_error_single_post (env : HttpEnv) (timeout status : Nat)
    (body : Option JValue)
    (hurl : optStrFalsy env.url = false)
    (hpost : env.post = .ok status body)
    (hstatus : 400 ≤ status) :
    httpRequest env timeout =
      { result := .jobj [("error", .jobj [("message", .jstr (httpErrorText status))])],
        postsMade := 1, oauthFlowsRun := 0, tokenCleared := false } := by
  simp [httpRequest, hurl, hpost, hstatus]

/-- Witness for C7 (amended): a 500 response at a concrete environment. -/
theorem c7_http_error_single_post_witness :
    httpRequest c7env500 60 =
      { result := .jobj [("error", .jobj [("message", .jstr (httpErrorText 500))])],
        postsMade := 1, oauthFlowsRun := 0, tokenCleared := false } := by
  exact c7_http_error_single_post c7env500 60 500 (some (.jobj [])) rfl rfl (by omega)

/-- Counterexample for C8: with a client secret configured, the one token
request of a successful flow carries `client_secret` in the form body and
only an `Accept` header — no HTTP Basic `Authorization` header exists,
contradicting the claimed Basic authentication. -/
theorem c8_secret_sent_in_body :
    (performOauthFlow c8env).tokenRequests = [c8reqExpected] := by
  rfl

/-- C8 (amended): whenever a non-empty client secret is configured and the
callback is valid, the token-exchange POST embeds the secret as a
`client_secret` field of the form payload, and its header list is exactly
`Accept: application/json` — in particular it contains no `Authorization`
header, so no HTTP Basic authentication is used. -/
theorem c8_secret_in_form_payload (env : OAuthEnv) (sec : String)
    (hsec : env.clientSecret = some sec) (hne : sec ≠ "")
    (hbase : optStrFalsy env.baseUrl = false) (hcid : optStrFalsy env.clientId = false)
    (hsrv : env.serverStart = true) (hcode : optStrFalsy env.callbackCode = false)
    (hstate : env.callbackState = some env.state) :
    ∃ req, (performOauthFlow env).tokenRequests = [req] ∧
      ("client_secret", sec) ∈ req.payloadData ∧
      req.headers = [("Accept", "application/json")] := by
  have hfals : optStrFalsy env.clientSecret = false := by
    simp [optStrFalsy, hsec, hne]
  unfold performOauthFlow
  rw [if_neg (by simp [hbase, hcid]), if_neg (by simp [hsrv]),
      if_neg (by simp [hcode, hstate]), if_neg (by simp [hfals])]
  refine ⟨_, rfl, ?_, rfl⟩
  simp [hsec]

/-- Witness for C8 (amended): the concrete flow of `c8env`. -/
theorem c8_secret_in_form_payload_witness :
    (performOauthFlow c8env).tokenRequests = [c8reqExpected] ∧
    ("client_secret", "sec") ∈ c8reqExpected.payloadData ∧
    c8reqExpected.headers = [("Accept", "application/json")] := by
  have h0 : (performOauthFlow c8env).tokenRequests = [c8reqExpected] := by rfl
  obtain ⟨req, h1, h2, h3⟩ :=
    c8_secret_in_form_payload c8env ("sec") rfl (by decide) rfl rfl rfl rfl rfl
  rw [h0] at h1
  injection h1 with hh _
  rw [← hh] at h2 h3
  exact ⟨h0, h2, h3⟩

/-- Counterexample for C9: the non-streaming `tools/call` path accepts a
terminal response whose `id` differs from that of the request, returning its text
content as the result instead of an error. -/
theorem c9_call_accepts_mismatched_id :
    executeToolNS (fun _ => exMismatchResp) "req-1" "lookup" [] "srv" = .text ("hi") ∧
    (lookupKey exMismatchResp ("id") != some (.jstr ("req-1"))) = true := by
  exact ⟨rfl, rfl⟩

/-- C9 (amended): `tools/list` rejects a response whose `id` differs from
that of the request (it yields no tools); the non-streaming `tools/call` never
looks at the response `id` — its result depends only on the emptiness of the response and its `error` and `result` fields. -/
theorem c9_id_check_scope :
    (∀ (respond : JValue → List (String × JValue)) (reqId : String),
      (lookupKey (respond (listToolsPayload reqId)) ("id") != some (.jstr reqId)) = true →
      listTools respond reqId = .jarr []) ∧
    (∀ (rd rd' : List (String × JValue)) (reqId toolName : String)
        (params : List (String × JValue)) (srv : String),
      rd.isEmpty = rd'.isEmpty →
      lookupKey rd ("error") = lookupKey rd' ("error") →
      lookupKey rd ("result") = lookupKey rd' ("result") →
      executeToolNS (fun _ => rd) reqId toolName params srv =
        executeToolNS (fun _ => rd') reqId toolName params srv) := by
  constructor
  · intro respond reqId hmis
    unfold listTools
    dsimp only
    by_cases hempty : ((respond (listToolsPayload reqId)).isEmpty ||
        hasKey (respond (listToolsPayload reqId)) "error") = true
    · rw [if_pos hempty]
    · rw [if_neg hempty, if_pos hmis]
  · intro rd rd' reqId toolName params srv h1 h2 h3
    simp only [executeToolNS, hasKey, jget]
    rw [h1, h2, h3]

/-- Witness for C9 (amended): the mismatched response is rejected by
`tools/list`, and `tools/call` gives the same result whether or not the
response `id` is corrected to match. -/
theorem c9_id_check_scope_witness :
    listTools (fun _ => exMismatchResp) "req-1" = .jarr [] ∧
    executeToolNS (fun _ => exMismatchResp) "req-1" "lookup" [] "srv" =
      executeToolNS (fun _ => setKey exMismatchResp ("id") (.jstr ("req-1")))
        "req-1" "lookup" [] "srv" := by
  exact ⟨c9_id_check_scope.1 (fun _ => exMismatchResp) "req-1" rfl,
         c9_id_check_scope.2 exMismatchResp (setKey exMismatchResp ("id") (.jstr ("req-1")))
           "req-1" "lookup" [] "srv" rfl rfl rfl⟩

/-- C10: a prompt that is empty or whitespace-only makes `chat` return
`None` before reaching the model: nothing is sent to the chat session (its
history is untouched) and no tool is dispatched. -/
theorem c10_blank_prompt_returns_none (reg : ToolRegistry)
    (script : Nat → ModelResponse) (sessionReady : Bool) (maxToolCalls : Nat)
    (prompt : String) (h : pyStrip prompt = "") :
    chat reg script sessionReady prompt maxToolCalls =
      { reply := none, sent := [], dispatches := 0 } := by
  simp [chat, h]

/-- Witness for C10: a whitespace-only prompt. -/
theorem c10_blank_prompt_returns_none_witness :
    chat exReg exScript true (" \n ") 5 = { reply := none, sent := [], dispatches := 0 } := by
  exact c10_blank_prompt_returns_none exReg exScript true 5 " \n " rfl

end AiThing
